import Mathlib

/-!
Shallow embedding of the Financial Modeling Engine of the
franchise-pro-calculator repository (src/App.tsx).

Numeric convention: the source computes with JavaScript numbers. We embed
values as exact rationals (ℚ). Division, which in JavaScript can produce
Infinity or NaN when the denominator is zero, is embedded through the type
`JSNum`, an extended rational with the IEEE-754 special values `inf`, `ninf`
and `nan`; on finite operands with a nonzero denominator it agrees with exact
rational division. Metric fields that the source computes by division are
`JSNum`; fields computed only by +, -, * and division by the constant 12 are
plain ℚ.
-/

namespace FranchiseCalc

/-- A JavaScript number that is either an exact finite rational or one of the
IEEE special values Infinity, -Infinity, NaN. -/
inductive JSNum where
  | fin : ℚ → JSNum
  | inf : JSNum
  | ninf : JSNum
  | nan : JSNum
deriving DecidableEq, Repr

/-- JavaScript division of two finite numbers: `a / b` is the exact quotient
when `b ≠ 0`, and Infinity, -Infinity or NaN (by the sign of `a`) when
`b = 0`. -/
def jsDiv (a b : ℚ) : JSNum :=
  if b = 0 then
    if 0 < a then JSNum.inf else if a < 0 then JSNum.ninf else JSNum.nan
  else JSNum.fin (a / b)

/-- JavaScript division of a (possibly non-finite) number by a finite one. -/
def JSNum.divQ : JSNum → ℚ → JSNum
  | JSNum.fin a, q => jsDiv a q
  | JSNum.inf, q => if q < 0 then JSNum.ninf else JSNum.inf
  | JSNum.ninf, q => if q < 0 then JSNum.inf else JSNum.ninf
  | JSNum.nan, _ => JSNum.nan

/-- JavaScript multiplication of a (possibly non-finite) number by a finite
one. -/
def JSNum.mulQ : JSNum → ℚ → JSNum
  | JSNum.fin a, q => JSNum.fin (a * q)
  | JSNum.inf, q => if 0 < q then JSNum.inf else if q < 0 then JSNum.ninf else JSNum.nan
  | JSNum.ninf, q => if 0 < q then JSNum.ninf else if q < 0 then JSNum.inf else JSNum.nan
  | JSNum.nan, _ => JSNum.nan

/-- The raw business inputs of the calculator (the numeric form state of
`App.tsx`). -/
structure BusinessInputs where
  franchiseFee : ℚ
  buildOut : ℚ
  equipment : ℚ
  workingCapital : ℚ
  contractTerm : ℚ
  avgTicket : ℚ
  dailyCust : ℚ
  daysOpen : ℚ
  cogsPercent : ℚ
  laborPercent : ℚ
  royaltyPercent : ℚ
  marketingPercent : ℚ
  rentMonthly : ℚ
  salariesMonthly : ℚ
  miscMonthly : ℚ
deriving DecidableEq, Repr

/-- The derived metrics record (the `metrics` state of `App.tsx`). Fields the
source computes by a guarded division are `JSNum`. -/
structure FinancialMetrics where
  totalInvestment : ℚ
  annualRevenue : ℚ
  annualExpenses : ℚ
  netProfit : ℚ
  monthlyNet : ℚ
  roiYears : JSNum
  breakEvenMonths : JSNum
  margin : JSNum
  contractTerm : ℚ
  requiredDailyCustomers : JSNum
  requiredDailyCustomersForMargin : JSNum
deriving DecidableEq, Repr

/-- The metrics derivation of `App.tsx` (the `useEffect` at lines 414-491),
step for step. -/
def derive (inp : BusinessInputs) : FinancialMetrics :=
  let totalInv := inp.franchiseFee + inp.buildOut + inp.equipment + inp.workingCapital
  let annualRev := inp.avgTicket * inp.dailyCust * inp.daysOpen
  let cogs := annualRev * (inp.cogsPercent / 100)
  let labor := annualRev * (inp.laborPercent / 100)
  let royalties := annualRev * (inp.royaltyPercent / 100)
  let marketing := annualRev * (inp.marketingPercent / 100)
  let rent := inp.rentMonthly * 12
  let salaries := inp.salariesMonthly * 12
  let misc := inp.miscMonthly * 12
  let totalAnnualExpenses := cogs + labor + royalties + marketing + rent + salaries + misc
  let annualNetProfit := annualRev - totalAnnualExpenses
  let monthlyNetProfit := annualNetProfit / 12
  let paybackYears := if 0 < annualNetProfit then jsDiv totalInv annualNetProfit else JSNum.fin 0
  let breakEvenM := if 0 < annualNetProfit then jsDiv totalInv monthlyNetProfit else JSNum.fin 0
  let targetMonthlyNetROI := totalInv * (10 / 100)
  let monthlyFixedCosts := inp.rentMonthly + inp.salariesMonthly + inp.miscMonthly
  let requiredMonthlyContributionROI := targetMonthlyNetROI + monthlyFixedCosts
  let variableCostPercent :=
    inp.cogsPercent + inp.laborPercent + inp.royaltyPercent + inp.marketingPercent
  let marginPerCustomer := inp.avgTicket * (1 - variableCostPercent / 100)
  let reqDailyCustomers :=
    if 0 < marginPerCustomer ∧ 0 < inp.daysOpen then
      (jsDiv requiredMonthlyContributionROI marginPerCustomer).divQ (inp.daysOpen / 12)
    else JSNum.fin 0
  let variableRatio := variableCostPercent / 100
  let denominator := 1 - variableRatio - (10 / 100)
  let reqDailyCustomersForMargin :=
    if 0 < denominator then
      ((jsDiv (monthlyFixedCosts * 12) denominator).divQ inp.daysOpen).divQ inp.avgTicket
    else JSNum.fin 0
  { totalInvestment := totalInv
    annualRevenue := annualRev
    annualExpenses := totalAnnualExpenses
    netProfit := annualNetProfit
    monthlyNet := monthlyNetProfit
    roiYears := paybackYears
    breakEvenMonths := breakEvenM
    margin := if 0 < annualRev then (jsDiv annualNetProfit annualRev).mulQ 100 else JSNum.fin 0
    contractTerm := inp.contractTerm
    requiredDailyCustomers := reqDailyCustomers
    requiredDailyCustomersForMargin := reqDailyCustomersForMargin }

/-- Projection interval (the `interval` state of the report generator). -/
inductive PInterval where
  | monthly : PInterval
  | yearly : PInterval
deriving DecidableEq, Repr

/-- Projection configuration. The start date is embedded as a calendar year
and a zero-based month; JavaScript `new Date(y, m + i, 1)` normalizes month
overflow, so a date is identified with its absolute month count
`y * 12 + m`. -/
structure ProjectionConfig where
  startYear : ℕ
  startMonth : ℕ
  durationYears : ℕ
  interval : PInterval
  growthRate : ℚ
deriving DecidableEq, Repr

/-- One row of the generated projection. `rowDate` is the absolute month
count of the row's date for a monthly row, and the calendar year for a
yearly row (the source renders these as locale strings; chronological order
is the order of these numbers). -/
structure ProjectionRow where
  period : String
  rowDate : ℕ
  revenue : ℚ
  expenses : ℚ
  profit : ℚ
  cashBalance : ℚ
deriving DecidableEq, Repr

/-- The mutable loop state of `generateData`: the running cash balance, the
two yearly accumulators, and the rows pushed so far. -/
structure GenState where
  cash : ℚ
  accR : ℚ
  accE : ℚ
  rows : List ProjectionRow
deriving DecidableEq, Repr

/-- One iteration of the `for` loop of `generateData` (App.tsx lines
91-132), at month index `i`. -/
def genStep (startAbs : ℕ) (mRevBase mExpBase growthRate : ℚ) (isYearly : Bool)
    (totalMonths : ℕ) (s : GenState) (i : ℕ) : GenState :=
  let yearIdx := i / 12
  let growthFactor := (1 + growthRate / 100) ^ yearIdx
  let revenue := mRevBase * growthFactor
  let expense := mExpBase * (1 + growthRate * (5 / 10) / 100 * (yearIdx : ℚ))
  let profit := revenue - expense
  let cash := s.cash + profit
  if isYearly then
    let accR := s.accR + revenue
    let accE := s.accE + expense
    if (i + 1) % 12 = 0 ∨ i = totalMonths - 1 then
      { cash := cash, accR := 0, accE := 0,
        rows := s.rows ++
          [{ period := "Year " ++ toString (yearIdx + 1),
             rowDate := (startAbs + i) / 12,
             revenue := accR, expenses := accE, profit := accR - accE,
             cashBalance := cash }] }
    else
      { cash := cash, accR := accR, accE := accE, rows := s.rows }
  else
    { cash := cash, accR := s.accR, accE := s.accE,
      rows := s.rows ++
        [{ period := "Month " ++ toString (i + 1),
           rowDate := startAbs + i,
           revenue := revenue, expenses := expense, profit := profit,
           cashBalance := cash }] }

/-- The projection generator `generateData` of `App.tsx` (lines 78-134):
a fold of `genStep` over the month indices `0, ..., totalMonths - 1`
starting from cash balance `-totalInvestment` and empty accumulators. -/
def generateData (m : FinancialMetrics) (cfg : ProjectionConfig) : List ProjectionRow :=
  let startAbs := cfg.startYear * 12 + cfg.startMonth
  let mRevBase := m.annualRevenue / 12
  let mExpBase := m.annualExpenses / 12
  let totalMonths := cfg.durationYears * 12
  let isYearly := match cfg.interval with
    | PInterval.yearly => true
    | PInterval.monthly => false
  (List.foldl (genStep startAbs mRevBase mExpBase cfg.growthRate isYearly totalMonths)
    { cash := -m.totalInvestment, accR := 0, accE := 0, rows := [] }
    (List.range totalMonths)).rows

/-- Closed form of the loop's monthly revenue at month index `i`. -/
def revAt (mRevBase growthRate : ℚ) (i : ℕ) : ℚ :=
  mRevBase * (1 + growthRate / 100) ^ (i / 12)

/-- Closed form of the loop's monthly expense at month index `i`. -/
def expAt (mExpBase growthRate : ℚ) (i : ℕ) : ℚ :=
  mExpBase * (1 + growthRate * (5 / 10) / 100 * ((i / 12 : ℕ) : ℚ))

/-- Closed form of the loop's monthly profit at month index `i`. -/
def profitAt (mRevBase mExpBase growthRate : ℚ) (i : ℕ) : ℚ :=
  revAt mRevBase growthRate i - expAt mExpBase growthRate i

/-- The running cash balance after `n` months have been processed. -/
def cashAfter (totalInv mRevBase mExpBase growthRate : ℚ) (n : ℕ) : ℚ :=
  -totalInv + ∑ j ∈ Finset.range n, profitAt mRevBase mExpBase growthRate j

/-- The row emitted for month index `i` in the monthly interval. -/
def monthRow (startAbs : ℕ) (totalInv mRevBase mExpBase growthRate : ℚ) (i : ℕ) :
    ProjectionRow :=
  { period := "Month " ++ toString (i + 1)
    rowDate := startAbs + i
    revenue := revAt mRevBase growthRate i
    expenses := expAt mExpBase growthRate i
    profit := profitAt mRevBase mExpBase growthRate i
    cashBalance := cashAfter totalInv mRevBase mExpBase growthRate (i + 1) }

/-- The row emitted for year index `k` in the yearly interval. -/
def yearRow (startAbs : ℕ) (totalInv mRevBase mExpBase growthRate : ℚ) (k : ℕ) :
    ProjectionRow :=
  { period := "Year " ++ toString (k + 1)
    rowDate := (startAbs + (k * 12 + 11)) / 12
    revenue := ∑ t ∈ Finset.Ico (k * 12) (k * 12 + 12), revAt mRevBase growthRate t
    expenses := ∑ t ∈ Finset.Ico (k * 12) (k * 12 + 12), expAt mExpBase growthRate t
    profit := (∑ t ∈ Finset.Ico (k * 12) (k * 12 + 12), revAt mRevBase growthRate t) -
      ∑ t ∈ Finset.Ico (k * 12) (k * 12 + 12), expAt mExpBase growthRate t
    cashBalance := cashAfter totalInv mRevBase mExpBase growthRate (k * 12 + 12) }

/-- Loop invariant for the monthly interval: after `n` iterations the state
holds the running cash balance, untouched accumulators, and one row per
processed month. -/
theorem foldl_genStep_monthly (sa : ℕ) (T b e g : ℚ) (tm : ℕ) (n : ℕ) :
    List.foldl (genStep sa b e g false tm)
      { cash := -T, accR := 0, accE := 0, rows := [] } (List.range n) =
      { cash := cashAfter T b e g n, accR := 0, accE := 0,
        rows := (List.range n).map (monthRow sa T b e g) } := by
  induction n with
  | zero => simp [cashAfter]
  | succ n ih =>
      rw [List.range_succ, List.foldl_append, ih]
      have hc : cashAfter T b e g n +
          (b * (1 + g / 100) ^ (n / 12) -
            e * (1 + g * (5 / 10) / 100 * ((n / 12 : ℕ) : ℚ))) =
          cashAfter T b e g (n + 1) := by
        simp [cashAfter, Finset.sum_range_succ, profitAt, revAt, expAt]
        ring
      simp only [List.foldl_cons, List.foldl_nil, genStep, Bool.false_eq_true, if_false,
        GenState.mk.injEq, hc, List.range_succ, List.map_append, List.map_cons, List.map_nil]
      refine ⟨?_, ?_, ?_, ?_⟩ <;> trivial

/-- Unfolding: `generateData` in the monthly interval is the map of `monthRow` over the
month indices. -/
theorem generateData_monthly (m : FinancialMetrics) (cfg : ProjectionConfig)
    (h : cfg.interval = PInterval.monthly) :
    generateData m cfg = (List.range (cfg.durationYears * 12)).map
      (monthRow (cfg.startYear * 12 + cfg.startMonth) m.totalInvestment
        (m.annualRevenue / 12) (m.annualExpenses / 12) cfg.growthRate) := by
  simp only [generateData, h]
  rw [foldl_genStep_monthly]

/-- Loop invariant for the yearly interval: after `n ≤ 12·d` iterations the
state holds the running cash balance, the partial-year accumulators over the
months since the last emission, and one row per completed year. -/
theorem foldl_genStep_yearly (sa : ℕ) (T b e g : ℚ) (d : ℕ) (n : ℕ) (hn : n ≤ d * 12) :
    List.foldl (genStep sa b e g true (d * 12))
      { cash := -T, accR := 0, accE := 0, rows := [] } (List.range n) =
      { cash := cashAfter T b e g n,
        accR := ∑ t ∈ Finset.Ico (n / 12 * 12) n, revAt b g t,
        accE := ∑ t ∈ Finset.Ico (n / 12 * 12) n, expAt e g t,
        rows := (List.range (n / 12)).map (yearRow sa T b e g) } := by
  induction n with
  | zero => simp [cashAfter]
  | succ n ih =>
      have hn' : n ≤ d * 12 := Nat.le_of_succ_le hn
      rw [List.range_succ, List.foldl_append, ih hn']
      have hkn : n / 12 * 12 ≤ n := Nat.div_mul_le_self n 12
      have hcash : cashAfter T b e g n + (revAt b g n - expAt e g n) =
          cashAfter T b e g (n + 1) := by
        simp [cashAfter, Finset.sum_range_succ, profitAt]
        ring
      have hR : (∑ t ∈ Finset.Ico (n / 12 * 12) n, revAt b g t) + revAt b g n =
          ∑ t ∈ Finset.Ico (n / 12 * 12) (n + 1), revAt b g t := by
        rw [Finset.sum_Ico_succ_top hkn]
      have hE : (∑ t ∈ Finset.Ico (n / 12 * 12) n, expAt e g t) + expAt e g n =
          ∑ t ∈ Finset.Ico (n / 12 * 12) (n + 1), expAt e g t := by
        rw [Finset.sum_Ico_succ_top hkn]
      by_cases hmod : (n + 1) % 12 = 0
      · have hn11 : n = n / 12 * 12 + 11 := by omega
        have hfull : n + 1 = n / 12 * 12 + 12 := by omega
        have hk1 : (n + 1) / 12 = n / 12 + 1 := by omega
        have htop : (n + 1) / 12 * 12 = n + 1 := by omega
        simp only [List.foldl_cons, List.foldl_nil, genStep]
        rw [if_pos trivial, if_pos (Or.inl hmod : (n + 1) % 12 = 0 ∨ n = d * 12 - 1)]
        rw [GenState.mk.injEq]
        refine ⟨hcash, ?_, ?_, ?_⟩
        · rw [htop]
          simp
        · rw [htop]
          simp
        · rw [hk1, List.range_succ, List.map_append, List.map_cons, List.map_nil]
          congr 1
          rw [List.cons.injEq]
          refine ⟨?_, rfl⟩
          rw [yearRow, ProjectionRow.mk.injEq]
          refine ⟨rfl, by omega, ?_, ?_, ?_, ?_⟩
          · rw [← hfull]
            exact hR
          · rw [← hfull]
            exact hE
          · rw [← hfull, ← hR, ← hE]
            rfl
          · rw [← hfull]
            exact hcash
      · have hcond : ¬((n + 1) % 12 = 0 ∨ n = d * 12 - 1) := by omega
        have hk0 : (n + 1) / 12 = n / 12 := by omega
        simp only [List.foldl_cons, List.foldl_nil, genStep]
        rw [if_pos trivial, if_neg hcond]
        rw [GenState.mk.injEq, hk0]
        exact ⟨hcash, hR, hE, rfl⟩

/-- Unfolding: `generateData` in the yearly interval is the map of `yearRow` over the
year indices. -/
theorem generateData_yearly (m : FinancialMetrics) (cfg : ProjectionConfig)
    (h : cfg.interval = PInterval.yearly) :
    generateData m cfg = (List.range cfg.durationYears).map
      (yearRow (cfg.startYear * 12 + cfg.startMonth) m.totalInvestment
        (m.annualRevenue / 12) (m.annualExpenses / 12) cfg.growthRate) := by
  simp only [generateData, h]
  rw [foldl_genStep_yearly (cfg.startYear * 12 + cfg.startMonth) m.totalInvestment
    (m.annualRevenue / 12) (m.annualExpenses / 12) cfg.growthRate cfg.durationYears
    (cfg.durationYears * 12) le_rfl]
  have hd : cfg.durationYears * 12 / 12 = cfg.durationYears := by omega
  rw [hd]

/-! Field equations for `derive`; each is definitional. -/

theorem derive_totalInvestment (inp : BusinessInputs) :
    (derive inp).totalInvestment =
      inp.franchiseFee + inp.buildOut + inp.equipment + inp.workingCapital := rfl

theorem derive_annualRevenue (inp : BusinessInputs) :
    (derive inp).annualRevenue = inp.avgTicket * inp.dailyCust * inp.daysOpen := rfl

theorem derive_annualExpenses (inp : BusinessInputs) :
    (derive inp).annualExpenses =
      (derive inp).annualRevenue * (inp.cogsPercent / 100) +
      (derive inp).annualRevenue * (inp.laborPercent / 100) +
      (derive inp).annualRevenue * (inp.royaltyPercent / 100) +
      (derive inp).annualRevenue * (inp.marketingPercent / 100) +
      inp.rentMonthly * 12 + inp.salariesMonthly * 12 + inp.miscMonthly * 12 := rfl

theorem derive_netProfit (inp : BusinessInputs) :
    (derive inp).netProfit = (derive inp).annualRevenue - (derive inp).annualExpenses := rfl

theorem derive_monthlyNet (inp : BusinessInputs) :
    (derive inp).monthlyNet = (derive inp).netProfit / 12 := rfl

theorem derive_roiYears (inp : BusinessInputs) :
    (derive inp).roiYears =
      if 0 < (derive inp).netProfit then
        jsDiv (derive inp).totalInvestment (derive inp).netProfit
      else JSNum.fin 0 := rfl

theorem derive_breakEvenMonths (inp : BusinessInputs) :
    (derive inp).breakEvenMonths =
      if 0 < (derive inp).netProfit then
        jsDiv (derive inp).totalInvestment (derive inp).monthlyNet
      else JSNum.fin 0 := rfl

theorem derive_margin (inp : BusinessInputs) :
    (derive inp).margin =
      if 0 < (derive inp).annualRevenue then
        (jsDiv (derive inp).netProfit (derive inp).annualRevenue).mulQ 100
      else JSNum.fin 0 := rfl

theorem derive_requiredDailyCustomers (inp : BusinessInputs) :
    (derive inp).requiredDailyCustomers =
      if 0 < inp.avgTicket * (1 -
            (inp.cogsPercent + inp.laborPercent + inp.royaltyPercent + inp.marketingPercent) /
              100) ∧ 0 < inp.daysOpen then
        (jsDiv ((derive inp).totalInvestment * (10 / 100) +
            (inp.rentMonthly + inp.salariesMonthly + inp.miscMonthly))
          (inp.avgTicket * (1 -
            (inp.cogsPercent + inp.laborPercent + inp.royaltyPercent + inp.marketingPercent) /
              100))).divQ (inp.daysOpen / 12)
      else JSNum.fin 0 := rfl

theorem derive_requiredDailyCustomersForMargin (inp : BusinessInputs) :
    (derive inp).requiredDailyCustomersForMargin =
      if 0 < 1 -
          (inp.cogsPercent + inp.laborPercent + inp.royaltyPercent + inp.marketingPercent) /
            100 - 10 / 100 then
        ((jsDiv ((inp.rentMonthly + inp.salariesMonthly + inp.miscMonthly) * 12)
            (1 - (inp.cogsPercent + inp.laborPercent + inp.royaltyPercent +
              inp.marketingPercent) / 100 - 10 / 100)).divQ inp.daysOpen).divQ
          inp.avgTicket
      else JSNum.fin 0 := rfl

/-- Evaluation: `jsDiv` on a nonzero denominator is exact rational division. -/
theorem jsDiv_of_ne (a b : ℚ) (hb : b ≠ 0) : jsDiv a b = JSNum.fin (a / b) := by
  rw [jsDiv, if_neg hb]

/-- Evaluation: `divQ` on a finite numerator is `jsDiv`. -/
theorem fin_divQ (a q : ℚ) : (JSNum.fin a).divQ q = jsDiv a q := rfl

/-- Evaluation: `mulQ` on a finite numerator is exact multiplication. -/
theorem fin_mulQ (a q : ℚ) : (JSNum.fin a).mulQ q = JSNum.fin (a * q) := rfl

/-- The spec's concrete loss-making scenario (the default form values of the
app). -/
def scenarioInputs : BusinessInputs :=
  { franchiseFee := 500000, buildOut := 300000, equipment := 75000, workingCapital := 50000,
    contractTerm := 10, avgTicket := 100, dailyCust := 50, daysOpen := 320,
    cogsPercent := 30, laborPercent := 25, royaltyPercent := 6, marketingPercent := 2,
    rentMonthly := 50000, salariesMonthly := 30000, miscMonthly := 20000 }

/-- The spec's positive-profit scenario: same inputs with cheaper fixed
costs. -/
def scenarioInputsProfit : BusinessInputs :=
  { scenarioInputs with rentMonthly := 5000, salariesMonthly := 3000, miscMonthly := 2000 }

/-- C4: on the spec's concrete scenario, `derive` returns exactly the listed
metric values: totalInvestment 925000, annualRevenue 1600000, annualExpenses
2208000, netProfit -608000, roiYears 0, breakEvenMonths 0, marginPercent
-38. -/
theorem scenario_metrics :
    (derive scenarioInputs).totalInvestment = 925000 ∧
    (derive scenarioInputs).annualRevenue = 1600000 ∧
    (derive scenarioInputs).annualExpenses = 2208000 ∧
    (derive scenarioInputs).netProfit = -608000 ∧
    (derive scenarioInputs).roiYears = JSNum.fin 0 ∧
    (derive scenarioInputs).breakEvenMonths = JSNum.fin 0 ∧
    (derive scenarioInputs).margin = JSNum.fin (-38) := by
  simp only [derive, scenarioInputs]
  norm_num [jsDiv, JSNum.mulQ]

/-- C2: `derive` returns `roiYears = totalInvestment / netProfit` and
`breakEvenMonths = totalInvestment / monthlyNet` when `netProfit > 0`, and
the sentinel `0` for both otherwise — never Infinity. -/
theorem payback_policy (inp : BusinessInputs) :
    (0 < (derive inp).netProfit →
      (derive inp).roiYears =
        JSNum.fin ((derive inp).totalInvestment / (derive inp).netProfit) ∧
      (derive inp).breakEvenMonths =
        JSNum.fin ((derive inp).totalInvestment / (derive inp).monthlyNet)) ∧
    ((derive inp).netProfit ≤ 0 →
      (derive inp).roiYears = JSNum.fin 0 ∧ (derive inp).breakEvenMonths = JSNum.fin 0) := by
  constructor
  · intro h
    have h12 : (derive inp).monthlyNet ≠ 0 := by
      rw [derive_monthlyNet]
      exact div_ne_zero (ne_of_gt h) (by norm_num)
    rw [derive_roiYears, derive_breakEvenMonths, if_pos h, if_pos h,
      jsDiv_of_ne _ _ (ne_of_gt h), jsDiv_of_ne _ _ h12]
    exact ⟨rfl, rfl⟩
  · intro h
    rw [derive_roiYears, derive_breakEvenMonths, if_neg (not_lt.mpr h), if_neg (not_lt.mpr h)]
    exact ⟨rfl, rfl⟩

/-- C2 witness: both branches instantiated, on the profitable scenario and
the loss-making scenario. -/
theorem payback_policy_witness :
    ((derive scenarioInputsProfit).roiYears =
      JSNum.fin ((derive scenarioInputsProfit).totalInvestment /
        (derive scenarioInputsProfit).netProfit) ∧
     (derive scenarioInputsProfit).breakEvenMonths =
      JSNum.fin ((derive scenarioInputsProfit).totalInvestment /
        (derive scenarioInputsProfit).monthlyNet)) ∧
    ((derive scenarioInputs).roiYears = JSNum.fin 0 ∧
     (derive scenarioInputs).breakEvenMonths = JSNum.fin 0) :=
  ⟨(payback_policy scenarioInputsProfit).1 (by
      rw [derive_netProfit, derive_annualRevenue, derive_annualExpenses, derive_annualRevenue]
      norm_num [scenarioInputsProfit, scenarioInputs]),
   (payback_policy scenarioInputs).2 (by
      rw [derive_netProfit, derive_annualRevenue, derive_annualExpenses, derive_annualRevenue]
      norm_num [scenarioInputs])⟩

/-- C10: `breakEvenMonths` is always exactly `12 * roiYears` (both finite),
and both are `0` when `netProfit ≤ 0`. -/
theorem breakEven_twelve_times_roi (inp : BusinessInputs) :
    (∃ q : ℚ, (derive inp).roiYears = JSNum.fin q ∧
      (derive inp).breakEvenMonths = JSNum.fin (12 * q)) ∧
    ((derive inp).netProfit ≤ 0 →
      (derive inp).roiYears = JSNum.fin 0 ∧ (derive inp).breakEvenMonths = JSNum.fin 0) := by
  constructor
  · by_cases h : 0 < (derive inp).netProfit
    · refine ⟨(derive inp).totalInvestment / (derive inp).netProfit, ?_, ?_⟩
      · rw [derive_roiYears, if_pos h, jsDiv_of_ne _ _ (ne_of_gt h)]
      · have h12 : (derive inp).monthlyNet ≠ 0 := by
          rw [derive_monthlyNet]
          positivity
        rw [derive_breakEvenMonths, if_pos h, jsDiv_of_ne _ _ h12, derive_monthlyNet]
        congr 1
        rw [div_div_eq_mul_div]
        rw [mul_comm 12 ((derive inp).totalInvestment / (derive inp).netProfit),
          div_mul_eq_mul_div]
    · refine ⟨0, ?_, ?_⟩
      · rw [derive_roiYears, if_neg h]
      · rw [derive_breakEvenMonths, if_neg h]
        norm_num
  · intro h
    rw [derive_roiYears, derive_breakEvenMonths, if_neg (not_lt.mpr h), if_neg (not_lt.mpr h)]
    exact ⟨rfl, rfl⟩

/-- C10 witness: the sentinel branch instantiated on the loss-making
scenario. -/
theorem breakEven_twelve_times_roi_witness :
    (derive scenarioInputs).roiYears = JSNum.fin 0 ∧
    (derive scenarioInputs).breakEvenMonths = JSNum.fin 0 :=
  (breakEven_twelve_times_roi scenarioInputs).2 (by
    rw [derive_netProfit, derive_annualRevenue, derive_annualExpenses, derive_annualRevenue]
    norm_num [scenarioInputs])

/-- All-zero inputs. -/
def zeroInputs : BusinessInputs :=
  { franchiseFee := 0, buildOut := 0, equipment := 0, workingCapital := 0,
    contractTerm := 0, avgTicket := 0, dailyCust := 0, daysOpen := 0,
    cogsPercent := 0, laborPercent := 0, royaltyPercent := 0, marketingPercent := 0,
    rentMonthly := 0, salariesMonthly := 0, miscMonthly := 0 }

/-- Inputs whose variable-cost percentages sum to exactly 90. -/
def highVariableInputs : BusinessInputs :=
  { scenarioInputs with
    cogsPercent := 90
    laborPercent := 0
    royaltyPercent := 0
    marketingPercent := 0 }

/-- Inputs whose variable-cost percentages sum to more than 90, making the
margin-headroom denominator strictly negative. -/
def overVariableInputs : BusinessInputs :=
  { scenarioInputs with
    cogsPercent := 95
    laborPercent := 0
    royaltyPercent := 0
    marketingPercent := 0 }

/-- Zero revenue but a negative fixed cost: the revenue product is 0 yet
`netProfit` is positive, so the payback branch computes a nonzero
`roiYears`. -/
def negFixedInputs : BusinessInputs :=
  { zeroInputs with franchiseFee := 12, rentMonthly := -1 }

/-- Positive fixed costs with `daysOpen = 0` and `avgTicket = 0`: the margin
denominator is positive, so the source divides the required revenue by zero
and the metric is Infinity. -/
def unattainableInputs : BusinessInputs :=
  { zeroInputs with rentMonthly := 1 }

/-- C5: the operational-safety customer target: when the margin-headroom
denominator `1 - totalVariablePercent/100 - 0.10` is positive,
`requiredDailyCustomersForMargin` is
`((monthlyFixed*12)/denominator)/daysOpenPerYear/avgTicket` exactly as the
source divides it; otherwise it is the sentinel `0`; in particular it is `0`
whenever `totalVariablePercent ≥ 90`. -/
theorem operational_safety_target (inp : BusinessInputs) :
    (0 < 1 - (inp.cogsPercent + inp.laborPercent + inp.royaltyPercent +
        inp.marketingPercent) / 100 - 10 / 100 →
      (derive inp).requiredDailyCustomersForMargin =
        ((jsDiv ((inp.rentMonthly + inp.salariesMonthly + inp.miscMonthly) * 12)
            (1 - (inp.cogsPercent + inp.laborPercent + inp.royaltyPercent +
              inp.marketingPercent) / 100 - 10 / 100)).divQ inp.daysOpen).divQ
          inp.avgTicket) ∧
    (¬0 < 1 - (inp.cogsPercent + inp.laborPercent + inp.royaltyPercent +
        inp.marketingPercent) / 100 - 10 / 100 →
      (derive inp).requiredDailyCustomersForMargin = JSNum.fin 0) ∧
    (90 ≤ inp.cogsPercent + inp.laborPercent + inp.royaltyPercent + inp.marketingPercent →
      (derive inp).requiredDailyCustomersForMargin = JSNum.fin 0) := by
  refine ⟨fun h => ?_, fun h => ?_, fun h => ?_⟩
  · rw [derive_requiredDailyCustomersForMargin, if_pos h]
  · rw [derive_requiredDailyCustomersForMargin, if_neg h]
  · rw [derive_requiredDailyCustomersForMargin, if_neg (not_lt.mpr (by linarith))]

/-- C5 witness: the computed branch on the default scenario and the sentinel
branch at a 90% variable-cost structure. -/
theorem operational_safety_target_witness :
    (derive scenarioInputs).requiredDailyCustomersForMargin =
      ((jsDiv ((scenarioInputs.rentMonthly + scenarioInputs.salariesMonthly +
          scenarioInputs.miscMonthly) * 12)
          (1 - (scenarioInputs.cogsPercent + scenarioInputs.laborPercent +
            scenarioInputs.royaltyPercent + scenarioInputs.marketingPercent) / 100 -
            10 / 100)).divQ scenarioInputs.daysOpen).divQ scenarioInputs.avgTicket ∧
    (derive highVariableInputs).requiredDailyCustomersForMargin = JSNum.fin 0 :=
  ⟨(operational_safety_target scenarioInputs).1 (by norm_num [scenarioInputs]),
   (operational_safety_target highVariableInputs).2.2
     (by norm_num [highVariableInputs, scenarioInputs])⟩

/-- C3 counterexample: on `negFixedInputs` the revenue product
`daysOpen * avgTicket * dailyCustomers` is 0 but `roiYears` is 1, not the
sentinel 0 — the claim fails for negative fixed costs. -/
theorem zero_revenue_roi_counterexample :
    negFixedInputs.daysOpen * negFixedInputs.avgTicket * negFixedInputs.dailyCust = 0 ∧
    (derive negFixedInputs).roiYears = JSNum.fin 1 ∧
    (derive negFixedInputs).roiYears ≠ JSNum.fin 0 := by
  refine ⟨by norm_num [negFixedInputs, zeroInputs], ?_, ?_⟩ <;>
    simp only [derive, negFixedInputs, zeroInputs] <;>
    norm_num [jsDiv]

/-- C3 (amended): if `daysOpenPerYear * avgTicket * dailyCustomers = 0` then
`marginPercent = 0`, and `roiYears = 0` as well provided the monthly fixed
costs are nonnegative (so that `netProfit` cannot be positive). -/
theorem zero_revenue_sentinels (inp : BusinessInputs)
    (h : inp.daysOpen * inp.avgTicket * inp.dailyCust = 0) :
    (derive inp).margin = JSNum.fin 0 ∧
    (0 ≤ inp.rentMonthly + inp.salariesMonthly + inp.miscMonthly →
      (derive inp).roiYears = JSNum.fin 0) := by
  have hrev : (derive inp).annualRevenue = 0 := by
    rw [derive_annualRevenue]
    linear_combination h
  constructor
  · rw [derive_margin, if_neg (by rw [hrev]; norm_num)]
  · intro hf
    have hnp : (derive inp).netProfit ≤ 0 := by
      rw [derive_netProfit, derive_annualExpenses, hrev]
      linarith
    rw [derive_roiYears, if_neg (not_lt.mpr hnp)]

/-- C3 witness: both parts at the all-zero inputs. -/
theorem zero_revenue_sentinels_witness :
    (derive zeroInputs).margin = JSNum.fin 0 ∧ (derive zeroInputs).roiYears = JSNum.fin 0 :=
  ⟨(zero_revenue_sentinels zeroInputs (by norm_num [zeroInputs])).1,
   (zero_revenue_sentinels zeroInputs (by norm_num [zeroInputs])).2
     (by norm_num [zeroInputs])⟩

/-- C1 counterexample: on `unattainableInputs` (denominator positive,
`daysOpen = avgTicket = 0`) the metric `requiredDailyCustomersForMargin` is
Infinity, not the sentinel 0 — `derive` is not sentinel-safe on that
metric. -/
theorem sentinel_safety_counterexample :
    (derive unattainableInputs).requiredDailyCustomersForMargin = JSNum.inf := by
  rw [derive_requiredDailyCustomersForMargin,
    if_pos (by norm_num [unattainableInputs, zeroInputs])]
  norm_num [unattainableInputs, zeroInputs, jsDiv, JSNum.divQ]

/-- C1 (amended): `derive` is total, and every ratio metric except
`requiredDailyCustomersForMargin` is always a finite number that equals the
sentinel 0 when its denominator is zero; `requiredDailyCustomersForMargin`
equals the sentinel 0 when its margin-headroom denominator is not positive
and is
finite whenever `daysOpen` and `avgTicket` are nonzero, but it is not
sentinel-safe against zero `daysOpen`/`avgTicket` (see the
counterexample). -/
theorem sentinel_safety (inp : BusinessInputs) :
    (∃ q, (derive inp).roiYears = JSNum.fin q) ∧
    (∃ q, (derive inp).breakEvenMonths = JSNum.fin q) ∧
    (∃ q, (derive inp).margin = JSNum.fin q) ∧
    (∃ q, (derive inp).requiredDailyCustomers = JSNum.fin q) ∧
    ((derive inp).netProfit = 0 →
      (derive inp).roiYears = JSNum.fin 0 ∧ (derive inp).breakEvenMonths = JSNum.fin 0) ∧
    ((derive inp).annualRevenue = 0 → (derive inp).margin = JSNum.fin 0) ∧
    (inp.daysOpen = 0 → (derive inp).requiredDailyCustomers = JSNum.fin 0) ∧
    (inp.avgTicket * (1 - (inp.cogsPercent + inp.laborPercent + inp.royaltyPercent +
        inp.marketingPercent) / 100) = 0 →
      (derive inp).requiredDailyCustomers = JSNum.fin 0) ∧
    (1 - (inp.cogsPercent + inp.laborPercent + inp.royaltyPercent +
        inp.marketingPercent) / 100 - 10 / 100 ≤ 0 →
      (derive inp).requiredDailyCustomersForMargin = JSNum.fin 0) ∧
    (inp.daysOpen ≠ 0 → inp.avgTicket ≠ 0 →
      ∃ q, (derive inp).requiredDailyCustomersForMargin = JSNum.fin q) := by
  refine ⟨?_, ?_, ?_, ?_, fun h => ?_, fun h => ?_, fun h => ?_, fun h => ?_, fun h => ?_,
    fun h1 h2 => ?_⟩
  · rw [derive_roiYears]
    by_cases h : 0 < (derive inp).netProfit
    · rw [if_pos h, jsDiv_of_ne _ _ (ne_of_gt h)]
      exact ⟨_, rfl⟩
    · rw [if_neg h]
      exact ⟨0, rfl⟩
  · rw [derive_breakEvenMonths]
    by_cases h : 0 < (derive inp).netProfit
    · rw [if_pos h, derive_monthlyNet,
        jsDiv_of_ne _ _ (div_ne_zero (ne_of_gt h) (by norm_num))]
      exact ⟨_, rfl⟩
    · rw [if_neg h]
      exact ⟨0, rfl⟩
  · rw [derive_margin]
    by_cases h : 0 < (derive inp).annualRevenue
    · rw [if_pos h, jsDiv_of_ne _ _ (ne_of_gt h), fin_mulQ]
      exact ⟨_, rfl⟩
    · rw [if_neg h]
      exact ⟨0, rfl⟩
  · rw [derive_requiredDailyCustomers]
    by_cases h : 0 < inp.avgTicket * (1 - (inp.cogsPercent + inp.laborPercent +
        inp.royaltyPercent + inp.marketingPercent) / 100) ∧ 0 < inp.daysOpen
    · rw [if_pos h, jsDiv_of_ne _ _ (ne_of_gt h.1), fin_divQ,
        jsDiv_of_ne _ _ (div_ne_zero (ne_of_gt h.2) (by norm_num))]
      exact ⟨_, rfl⟩
    · rw [if_neg h]
      exact ⟨0, rfl⟩
  · have h0 : ¬0 < (derive inp).netProfit := by
      rw [h]
      exact lt_irrefl 0
    rw [derive_roiYears, derive_breakEvenMonths, if_neg h0, if_neg h0]
    exact ⟨rfl, rfl⟩
  · have h0 : ¬0 < (derive inp).annualRevenue := by
      rw [h]
      exact lt_irrefl 0
    rw [derive_margin, if_neg h0]
  · rw [derive_requiredDailyCustomers, if_neg]
    rintro ⟨-, h2⟩
    rw [h] at h2
    exact lt_irrefl 0 h2
  · rw [derive_requiredDailyCustomers, if_neg]
    rintro ⟨h1, -⟩
    rw [h] at h1
    exact lt_irrefl 0 h1
  · rw [derive_requiredDailyCustomersForMargin, if_neg (not_lt.mpr h)]
  · rw [derive_requiredDailyCustomersForMargin]
    by_cases h : 0 < 1 - (inp.cogsPercent + inp.laborPercent + inp.royaltyPercent +
        inp.marketingPercent) / 100 - 10 / 100
    · rw [if_pos h, jsDiv_of_ne _ _ (ne_of_gt h), fin_divQ, jsDiv_of_ne _ _ h1,
        fin_divQ, jsDiv_of_ne _ _ h2]
      exact ⟨_, rfl⟩
    · rw [if_neg h]
      exact ⟨0, rfl⟩

/-- C1 witness: the sentinel and finiteness conjuncts instantiated across
concrete inputs that realize each degenerate denominator. -/
theorem sentinel_safety_witness :
    ((derive zeroInputs).roiYears = JSNum.fin 0 ∧
      (derive zeroInputs).breakEvenMonths = JSNum.fin 0) ∧
    (derive zeroInputs).margin = JSNum.fin 0 ∧
    (derive zeroInputs).requiredDailyCustomers = JSNum.fin 0 ∧
    (derive highVariableInputs).requiredDailyCustomersForMargin = JSNum.fin 0 ∧
    (derive overVariableInputs).requiredDailyCustomersForMargin = JSNum.fin 0 ∧
    (∃ q, (derive scenarioInputs).requiredDailyCustomersForMargin = JSNum.fin q) :=
  ⟨(sentinel_safety zeroInputs).2.2.2.2.1
      (by rw [derive_netProfit, derive_annualRevenue, derive_annualExpenses,
            derive_annualRevenue]
          norm_num [zeroInputs]),
   (sentinel_safety zeroInputs).2.2.2.2.2.1
      (by rw [derive_annualRevenue]; norm_num [zeroInputs]),
   (sentinel_safety zeroInputs).2.2.2.2.2.2.1 (by norm_num [zeroInputs]),
   (sentinel_safety highVariableInputs).2.2.2.2.2.2.2.2.1
      (by norm_num [highVariableInputs, scenarioInputs]),
   (sentinel_safety overVariableInputs).2.2.2.2.2.2.2.2.1
      (by norm_num [overVariableInputs, scenarioInputs]),
   (sentinel_safety scenarioInputs).2.2.2.2.2.2.2.2.2
      (by norm_num [scenarioInputs]) (by norm_num [scenarioInputs])⟩

/-- A default row for total indexing. -/
def dummyRow : ProjectionRow :=
  { period := "", rowDate := 0, revenue := 0, expenses := 0, profit := 0, cashBalance := 0 }

/-- A monthly one-year configuration. -/
def cfgMonthly1 : ProjectionConfig :=
  { startYear := 2025, startMonth := 0, durationYears := 1,
    interval := PInterval.monthly, growthRate := 5 }

/-- A yearly one-year configuration. -/
def cfgYearly1 : ProjectionConfig :=
  { cfgMonthly1 with interval := PInterval.yearly }

/-- A zero-duration configuration. -/
def cfgZeroYears : ProjectionConfig :=
  { cfgMonthly1 with durationYears := 0 }

/-- C6: the generated sequence has length `durationYears * 12` in the
monthly interval and `⌈durationYears * 12 / 12⌉` in the yearly interval, its
rows are strictly chronological, and duration 0 yields the empty
sequence. -/
theorem projection_shape (m : FinancialMetrics) (cfg : ProjectionConfig) :
    (cfg.interval = PInterval.monthly →
      (generateData m cfg).length = cfg.durationYears * 12) ∧
    (cfg.interval = PInterval.yearly →
      (generateData m cfg).length = (cfg.durationYears * 12 + 11) / 12) ∧
    ((generateData m cfg).map ProjectionRow.rowDate).Pairwise (· < ·) ∧
    (cfg.durationYears = 0 → generateData m cfg = []) := by
  refine ⟨fun h => ?_, fun h => ?_, ?_, fun h => ?_⟩
  · rw [generateData_monthly m cfg h]
    simp
  · rw [generateData_yearly m cfg h]
    simp only [List.length_map, List.length_range]
    omega
  · cases hi : cfg.interval with
    | monthly =>
        rw [generateData_monthly m cfg hi, List.map_map]
        refine List.Pairwise.map _ (fun a b hab => ?_) (List.pairwise_lt_range _)
        show (monthRow _ _ _ _ _ a).rowDate < (monthRow _ _ _ _ _ b).rowDate
        simp only [monthRow]
        omega
    | yearly =>
        rw [generateData_yearly m cfg hi, List.map_map]
        refine List.Pairwise.map _ (fun a b hab => ?_) (List.pairwise_lt_range _)
        show (yearRow _ _ _ _ _ a).rowDate < (yearRow _ _ _ _ _ b).rowDate
        simp only [yearRow]
        omega
  · cases hi : cfg.interval with
    | monthly =>
        rw [generateData_monthly m cfg hi, h]
        simp
    | yearly =>
        rw [generateData_yearly m cfg hi, h]
        simp

/-- C6 witness: lengths 12, 1 and 0 on one-year monthly, one-year yearly and
zero-duration configurations. -/
theorem projection_shape_witness :
    (generateData (derive scenarioInputs) cfgMonthly1).length = 12 ∧
    (generateData (derive scenarioInputs) cfgYearly1).length = 1 ∧
    generateData (derive scenarioInputs) cfgZeroYears = [] :=
  ⟨(projection_shape (derive scenarioInputs) cfgMonthly1).1 rfl,
   (projection_shape (derive scenarioInputs) cfgYearly1).2.1 rfl,
   (projection_shape (derive scenarioInputs) cfgZeroYears).2.2.2 rfl⟩

/-- C8: the cash balance starts at `-totalInvestment` and is never clamped:
with `durationYears ≥ 1` the first row's cashBalance equals
`-totalInvestment + profit(row 1)`, and every row's cashBalance is the raw
running sum `cashAfter` of all monthly profits since the start — negative
values included, exactly as computed. -/
theorem cash_balance_unclamped (m : FinancialMetrics) (cfg : ProjectionConfig)
    (hd : 1 ≤ cfg.durationYears) :
    (∃ r rest, generateData m cfg = r :: rest ∧
      r.cashBalance = -m.totalInvestment + r.profit) ∧
    (cfg.interval = PInterval.monthly → ∀ k r, (generateData m cfg)[k]? = some r →
      r.cashBalance = cashAfter m.totalInvestment (m.annualRevenue / 12)
        (m.annualExpenses / 12) cfg.growthRate (k + 1)) ∧
    (cfg.interval = PInterval.yearly → ∀ k r, (generateData m cfg)[k]? = some r →
      r.cashBalance = cashAfter m.totalInvestment (m.annualRevenue / 12)
        (m.annualExpenses / 12) cfg.growthRate (k * 12 + 12)) := by
  refine ⟨?_, fun hm k r hr => ?_, fun hy k r hr => ?_⟩
  · cases hi : cfg.interval with
    | monthly =>
        rw [generateData_monthly m cfg hi]
        obtain ⟨n, hn⟩ : ∃ n, cfg.durationYears * 12 = n + 1 :=
          ⟨cfg.durationYears * 12 - 1, by omega⟩
        rw [hn, List.range_succ_eq_map, List.map_cons]
        refine ⟨_, _, rfl, ?_⟩
        simp [monthRow, cashAfter, Finset.sum_range_one]
    | yearly =>
        rw [generateData_yearly m cfg hi]
        obtain ⟨n, hn⟩ : ∃ n, cfg.durationYears = n + 1 :=
          ⟨cfg.durationYears - 1, by omega⟩
        rw [hn, List.range_succ_eq_map, List.map_cons]
        refine ⟨_, _, rfl, ?_⟩
        simp only [yearRow, cashAfter, Nat.zero_mul, Nat.zero_add]
        rw [Finset.range_eq_Ico, ← Finset.sum_sub_distrib]
        rfl
  · have hk : k < cfg.durationYears * 12 := by
      obtain ⟨hk, -⟩ := List.getElem?_eq_some_iff.mp hr
      rw [generateData_monthly m cfg hm, List.length_map, List.length_range] at hk
      exact hk
    rw [generateData_monthly m cfg hm, List.getElem?_map, List.getElem?_range hk] at hr
    simp only [Option.map_some', Option.some.injEq] at hr
    subst hr
    rfl
  · have hk : k < cfg.durationYears := by
      obtain ⟨hk, -⟩ := List.getElem?_eq_some_iff.mp hr
      rw [generateData_yearly m cfg hy, List.length_map, List.length_range] at hk
      exact hk
    rw [generateData_yearly m cfg hy, List.getElem?_map, List.getElem?_range hk] at hr
    simp only [Option.map_some', Option.some.injEq] at hr
    subst hr
    rfl

/-- C8 witness: the first-row property on the default scenario, one-year
monthly projection. -/
theorem cash_balance_unclamped_witness :
    ∃ r rest, generateData (derive scenarioInputs) cfgMonthly1 = r :: rest ∧
      r.cashBalance = -(derive scenarioInputs).totalInvestment + r.profit :=
  (cash_balance_unclamped (derive scenarioInputs) cfgMonthly1 (by norm_num [cfgMonthly1])).1

/-- Indexing the monthly projection. -/
theorem getElem_generateData_monthly (m : FinancialMetrics) (cfg : ProjectionConfig)
    (h : cfg.interval = PInterval.monthly) (k : ℕ) (hk : k < cfg.durationYears * 12) :
    (generateData m cfg)[k]? = some (monthRow (cfg.startYear * 12 + cfg.startMonth)
      m.totalInvestment (m.annualRevenue / 12) (m.annualExpenses / 12) cfg.growthRate k) := by
  rw [generateData_monthly m cfg h, List.getElem?_map, List.getElem?_range hk,
    Option.map_some']

/-- Indexing the yearly projection. -/
theorem getElem_generateData_yearly (m : FinancialMetrics) (cfg : ProjectionConfig)
    (h : cfg.interval = PInterval.yearly) (k : ℕ) (hk : k < cfg.durationYears) :
    (generateData m cfg)[k]? = some (yearRow (cfg.startYear * 12 + cfg.startMonth)
      m.totalInvestment (m.annualRevenue / 12) (m.annualExpenses / 12) cfg.growthRate k) := by
  rw [generateData_yearly m cfg h, List.getElem?_map, List.getElem?_range hk,
    Option.map_some']

/-- The monthly revenue at the first month of year `k`. -/
theorem revAt_year_start (b g : ℚ) (k : ℕ) :
    revAt b g (k * 12) = b * (1 + g / 100) ^ k := by
  have hdiv : k * 12 / 12 = k := by omega
  rw [revAt, hdiv]

/-- A year's revenue total: twelve identical compounded months. -/
theorem yearRow_revenue_sum (b g : ℚ) (k : ℕ) :
    ∑ t ∈ Finset.Ico (k * 12) (k * 12 + 12), revAt b g t =
      12 * (b * (1 + g / 100) ^ k) := by
  have hconst : ∀ t ∈ Finset.Ico (k * 12) (k * 12 + 12),
      revAt b g t = b * (1 + g / 100) ^ k := by
    intro t ht
    obtain ⟨h1, h2⟩ := Finset.mem_Ico.mp ht
    have hdiv : t / 12 = k := by omega
    rw [revAt, hdiv]
  rw [Finset.sum_congr rfl hconst, Finset.sum_const, Nat.card_Ico]
  have hcard : k * 12 + 12 - k * 12 = 12 := by omega
  rw [hcard, nsmul_eq_mul]
  norm_num

/-- The all-zero metrics record (the app's initial `metrics` state). -/
def zeroMetrics : FinancialMetrics :=
  { totalInvestment := 0, annualRevenue := 0, annualExpenses := 0, netProfit := 0,
    monthlyNet := 0, roiYears := JSNum.fin 0, breakEvenMonths := JSNum.fin 0,
    margin := JSNum.fin 0, contractTerm := 0, requiredDailyCustomers := JSNum.fin 0,
    requiredDailyCustomersForMargin := JSNum.fin 0 }

/-- A two-year monthly configuration with 10% growth. -/
def cfgMonthly2 : ProjectionConfig :=
  { startYear := 2025, startMonth := 0, durationYears := 2,
    interval := PInterval.monthly, growthRate := 10 }

/-- A three-year yearly configuration with 10% growth. -/
def cfgYearly3 : ProjectionConfig :=
  { startYear := 2025, startMonth := 0, durationYears := 3,
    interval := PInterval.yearly, growthRate := 10 }

/-- C7 counterexample: with a positive growth rate but zero `annualRevenue`,
year 2's first-month revenue equals year 1's (both 0) — it is not strictly
greater, so the claim's unconditional strict increase fails. -/
theorem growth_compounding_counterexample :
    0 < cfgMonthly2.growthRate ∧
    ∃ r r2, (generateData zeroMetrics cfgMonthly2)[0]? = some r ∧
      (generateData zeroMetrics cfgMonthly2)[12]? = some r2 ∧
      ¬r.revenue < r2.revenue := by
  refine ⟨by norm_num [cfgMonthly2], ?_⟩
  have h0 := getElem_generateData_monthly zeroMetrics cfgMonthly2 rfl 0 (by norm_num [cfgMonthly2])
  have h12 := getElem_generateData_monthly zeroMetrics cfgMonthly2 rfl 12 (by norm_num [cfgMonthly2])
  refine ⟨_, _, h0, h12, ?_⟩
  show ¬(monthRow _ _ _ _ _ 0).revenue < (monthRow _ _ _ _ _ 12).revenue
  simp only [monthRow, revAt, zeroMetrics]
  norm_num

/-- C7 (amended): revenue compounds once per completed year — in a monthly
projection the first month of year `k+1` carries exactly `1 + rate/100`
times the revenue of year `k`'s first month, which is a strict increase
whenever the growth rate and `annualRevenue` are positive (the claim's
unconditional strict increase fails at zero revenue); a zero growth rate
yields identical revenue in every month; and in the yearly interval with
`durationYears = 3`, `growth = 10`, year 2's total is year 1's × 1.10 and
year 3's is year 1's × 1.21. -/
theorem growth_compounding (m : FinancialMetrics) (cfg : ProjectionConfig) :
    (cfg.interval = PInterval.monthly → ∀ (k : ℕ) (r r2 : ProjectionRow),
      k * 12 + 12 < cfg.durationYears * 12 →
      (generateData m cfg)[k * 12]? = some r →
      (generateData m cfg)[k * 12 + 12]? = some r2 →
      r2.revenue = r.revenue * (1 + cfg.growthRate / 100) ∧
      (0 < cfg.growthRate → 0 < m.annualRevenue → r.revenue < r2.revenue)) ∧
    (cfg.interval = PInterval.monthly → cfg.growthRate = 0 →
      ∀ (i j : ℕ) (ri rj : ProjectionRow),
      (generateData m cfg)[i]? = some ri → (generateData m cfg)[j]? = some rj →
      ri.revenue = rj.revenue) ∧
    (cfg.interval = PInterval.yearly → cfg.durationYears = 3 → cfg.growthRate = 10 →
      ∀ (r1 r2 r3 : ProjectionRow), (generateData m cfg)[0]? = some r1 →
      (generateData m cfg)[1]? = some r2 → (generateData m cfg)[2]? = some r3 →
      r2.revenue = r1.revenue * (11 / 10) ∧ r3.revenue = r1.revenue * (121 / 100)) := by
  refine ⟨fun hm k r r2 hk h1 h2 => ?_, fun hm hg0 i j ri rj hi hj => ?_,
    fun hy hd3 hg10 r1 r2 r3 h1 h2 h3 => ?_⟩
  · rw [getElem_generateData_monthly m cfg hm (k * 12) (by omega)] at h1
    rw [getElem_generateData_monthly m cfg hm (k * 12 + 12) (by omega)] at h2
    simp only [Option.some.injEq] at h1 h2
    subst h1
    subst h2
    have hdiv : (k * 12 + 12) / 12 = k + 1 := by omega
    have hrev2 : (monthRow (cfg.startYear * 12 + cfg.startMonth) m.totalInvestment
        (m.annualRevenue / 12) (m.annualExpenses / 12) cfg.growthRate
        (k * 12 + 12)).revenue =
        m.annualRevenue / 12 * (1 + cfg.growthRate / 100) ^ (k + 1) := by
      show revAt _ _ _ = _
      rw [revAt, hdiv]
    have hrev1 : (monthRow (cfg.startYear * 12 + cfg.startMonth) m.totalInvestment
        (m.annualRevenue / 12) (m.annualExpenses / 12) cfg.growthRate
        (k * 12)).revenue =
        m.annualRevenue / 12 * (1 + cfg.growthRate / 100) ^ k := by
      show revAt _ _ _ = _
      exact revAt_year_start _ _ _
    constructor
    · rw [hrev1, hrev2, pow_succ]
      ring
    · intro hg hrev
      rw [hrev1, hrev2, pow_succ, ← mul_assoc]
      have hbase : 0 < m.annualRevenue / 12 * (1 + cfg.growthRate / 100) ^ k := by
        positivity
      rw [lt_mul_iff_one_lt_right hbase]
      linarith
  · rw [getElem_generateData_monthly m cfg hm i
        (by obtain ⟨hl, -⟩ := List.getElem?_eq_some_iff.mp hi
            rwa [generateData_monthly m cfg hm, List.length_map, List.length_range] at hl)]
      at hi
    rw [getElem_generateData_monthly m cfg hm j
        (by obtain ⟨hl, -⟩ := List.getElem?_eq_some_iff.mp hj
            rwa [generateData_monthly m cfg hm, List.length_map, List.length_range] at hl)]
      at hj
    simp only [Option.some.injEq] at hi hj
    subst hi
    subst hj
    show revAt _ _ _ = revAt _ _ _
    rw [revAt, revAt, hg0]
    norm_num
  · rw [getElem_generateData_yearly m cfg hy 0 (by omega)] at h1
    rw [getElem_generateData_yearly m cfg hy 1 (by omega)] at h2
    rw [getElem_generateData_yearly m cfg hy 2 (by omega)] at h3
    simp only [Option.some.injEq] at h1 h2 h3
    subst h1
    subst h2
    subst h3
    simp only [yearRow, yearRow_revenue_sum, hg10]
    norm_num
    constructor <;> ring

/-- C7 witness: exact factor and strict growth at year boundary 0→1 on the
default scenario with 10% growth, two-year monthly projection. -/
theorem growth_compounding_witness :
    ∃ r r2, (generateData (derive scenarioInputs) cfgMonthly2)[0]? = some r ∧
      (generateData (derive scenarioInputs) cfgMonthly2)[12]? = some r2 ∧
      r2.revenue = r.revenue * (1 + cfgMonthly2.growthRate / 100) ∧
      r.revenue < r2.revenue := by
  have h0 := getElem_generateData_monthly (derive scenarioInputs) cfgMonthly2 rfl 0
    (by norm_num [cfgMonthly2])
  have h12 := getElem_generateData_monthly (derive scenarioInputs) cfgMonthly2 rfl 12
    (by norm_num [cfgMonthly2])
  have hmain := (growth_compounding (derive scenarioInputs) cfgMonthly2).1 rfl 0 _ _
    (by norm_num [cfgMonthly2]) (by rw [Nat.zero_mul]; exact h0)
    (by rw [Nat.zero_mul, Nat.zero_add]; exact h12)
  refine ⟨_, _, h0, h12, hmain.1, hmain.2 (by norm_num [cfgMonthly2]) ?_⟩
  rw [derive_annualRevenue]
  norm_num [scenarioInputs]

/-- C9: with the same metrics and configuration, the yearly sequence is a
faithful aggregation of the monthly sequence: yearly row `k`'s revenue and
expenses are the sums of the monthly rows' revenue and expenses over months
`12k..12k+11`, its profit is that revenue minus those expenses, and its
cashBalance equals the monthly sequence's cashBalance at month `12k+11`. -/
theorem yearly_refines_monthly (m : FinancialMetrics) (cfg : ProjectionConfig)
    (hy : cfg.interval = PInterval.yearly) (k : ℕ) (hk : k < cfg.durationYears)
    (r : ProjectionRow) (hr : (generateData m cfg)[k]? = some r) :
    r.revenue = ∑ j ∈ Finset.Ico (k * 12) (k * 12 + 12),
      ((generateData m { cfg with interval := PInterval.monthly })[j]?.getD
        dummyRow).revenue ∧
    r.expenses = ∑ j ∈ Finset.Ico (k * 12) (k * 12 + 12),
      ((generateData m { cfg with interval := PInterval.monthly })[j]?.getD
        dummyRow).expenses ∧
    r.profit = r.revenue - r.expenses ∧
    r.cashBalance =
      ((generateData m { cfg with interval := PInterval.monthly })[k * 12 + 11]?.getD
        dummyRow).cashBalance := by
  rw [getElem_generateData_yearly m cfg hy k hk] at hr
  simp only [Option.some.injEq] at hr
  subst hr
  have hmrow : ∀ j, j < cfg.durationYears * 12 →
      (generateData m { cfg with interval := PInterval.monthly })[j]?.getD dummyRow =
      monthRow (cfg.startYear * 12 + cfg.startMonth) m.totalInvestment
        (m.annualRevenue / 12) (m.annualExpenses / 12) cfg.growthRate j := by
    intro j hj
    rw [getElem_generateData_monthly m { cfg with interval := PInterval.monthly } rfl j hj]
    rfl
  refine ⟨?_, ?_, rfl, ?_⟩
  · simp only [yearRow]
    refine Finset.sum_congr rfl fun j hj => ?_
    obtain ⟨hj1, hj2⟩ := Finset.mem_Ico.mp hj
    rw [hmrow j (by omega)]
    rfl
  · simp only [yearRow]
    refine Finset.sum_congr rfl fun j hj => ?_
    obtain ⟨hj1, hj2⟩ := Finset.mem_Ico.mp hj
    rw [hmrow j (by omega)]
    rfl
  · rw [hmrow (k * 12 + 11) (by omega)]
    rfl

/-- C9 witness: year 1 of the default scenario's yearly projection
aggregates months 0..11 of its monthly projection. -/
theorem yearly_refines_monthly_witness :
    ∃ r, (generateData (derive scenarioInputs) cfgYearly1)[0]? = some r ∧
      r.revenue = ∑ j ∈ Finset.Ico (0 * 12) (0 * 12 + 12),
        ((generateData (derive scenarioInputs)
          { cfgYearly1 with interval := PInterval.monthly })[j]?.getD dummyRow).revenue ∧
      r.cashBalance = ((generateData (derive scenarioInputs)
          { cfgYearly1 with interval := PInterval.monthly })[0 * 12 + 11]?.getD
        dummyRow).cashBalance := by
  have h0 := getElem_generateData_yearly (derive scenarioInputs) cfgYearly1 rfl 0
    (by norm_num [cfgYearly1, cfgMonthly1])
  have hall := yearly_refines_monthly (derive scenarioInputs) cfgYearly1 rfl 0
    (by norm_num [cfgYearly1, cfgMonthly1]) _ h0
  exact ⟨_, h0, hall.1, hall.2.2.2⟩

end FranchiseCalc
